import Mathlib

/-!
# Verification of the GeNN model-specification core

A shallow embedding, in Lean 4, of the model-registry, grid-allocation and
sparse-connectivity code of the GeNN model-specification engine
(`modelSpec.cc`, `sparseUtils.h`, `initSparseConnectivitySnippet.h`),
together with theorems settling the specification's claims about it.

Conventions of the embedding:
* C++ `unsigned int` sizes and indices become `Nat` (no overflow is relevant
  at the model sizes the claims quantify over, and the source performs no
  wrap-around arithmetic on them).
* `double` data values become `ℚ` where only comparisons are performed
  (dense/sparse conversion, stored weights) and `ℝ` where transcendental
  functions are involved (the derived parameter `probLogRecip`).
* C arrays written by loops become Lean lists or total functions `Nat → Nat`
  built by `List.foldl` over the same iteration space as the loop.
* `gennError` aborts the build session.  Following the spec's error taxonomy
  (ConfigurationError / UnsupportedCombinationError / PlacementConsistencyError)
  an aborting operation is embedded as `Except.error (kind, state)` carrying
  the registry state at the moment of the abort, so that "no rollback"
  properties are expressible.
-/

/-! ## Grid allocator (claim C1)

`NNmodel::setPopulationSums` folds the ordered local neuron groups through
`NeuronGroup::calcSizes`, accumulating a padded ID start.  `calcSizes` itself
is not under `src/`; its padding formula is modelled from the spec:
a group of size `n` occupies `ceil(n/B)*B` padded IDs (`= ((n+B-1)/B)*B`
in natural-number arithmetic for `B > 0`). -/

/-- Modelled from the spec: `NeuronGroup::getPaddedSize` (not under `src/`) —
the population size rounded up to the next multiple of the block size. -/
def paddedSize (B n : Nat) : Nat := ((n + B - 1) / B) * B

/-- The fold inside `NNmodel::setPopulationSums`: each group records
`[paddedIDStart, paddedIDStart + paddedSize)` and advances the running start.
The range bookkeeping of `NeuronGroup::calcSizes` is modelled from the spec
(the method body is not under `src/`). -/
def calcPaddedRanges (B : Nat) : List Nat → Nat → List (Nat × Nat)
  | [], _ => []
  | n :: rest, start =>
      (start, start + paddedSize B n) :: calcPaddedRanges B rest (start + paddedSize B n)

/-- The padded neuron-ID ranges produced by `NNmodel::setPopulationSums` for an
ordered sequence of local population sizes, starting from `paddedNeuronIDStart = 0`. -/
def setPopulationSums (B : Nat) (sizes : List Nat) : List (Nat × Nat) :=
  calcPaddedRanges B sizes 0

/-- Total padded size of a list of populations. -/
def padTotal (B : Nat) (l : List Nat) : Nat := (l.map (paddedSize B)).sum

/-! ## Ragged projections (`sparseUtils.h`, claims C2 and C8) -/

/-- The index arrays of `RaggedProjection` (`sparseProjection.h`): row-major
padded storage with `maxRowLength` slots per presynaptic row, of which
`rowLength[i]` are valid, `ind` holding postsynaptic targets. -/
structure RaggedProjection where
  maxRowLength : Nat
  maxColLength : Nat
  rowLength : List Nat
  ind : List Nat
deriving DecidableEq

/-- The (row, slot) pairs visited by the nested loops
`for i < preN, for j < rowLength[i]` of `createPosttoPreArray` and
`createPreIndices`, in traversal order. -/
def rowMajorSynapses (preN : Nat) (C : RaggedProjection) : List (Nat × Nat) :=
  (List.range preN).bind fun i =>
    (List.range (C.rowLength.getD i 0)).map fun j => (i, j)

/-- `(i * C->maxRowLength) + j`, the row-major index of synapse `(i, j)`. -/
def synRowMajorIndex (C : RaggedProjection) (s : Nat × Nat) : Nat :=
  s.1 * C.maxRowLength + s.2

/-- `C->ind[rowMajorIndex]`, the postsynaptic target of synapse `(i, j)`. -/
def synTarget (C : RaggedProjection) (s : Nat × Nat) : Nat :=
  C.ind.getD (synRowMajorIndex C s) 0

/-- One iteration of the inner loop of the ragged `createPosttoPreArray`:
look up the target, place the synapse at the target's next free column-major
slot `postIndex * maxColLength + colLength[postIndex]`, bump
`colLength[postIndex]`, and record `remap[colMajorIndex] = rowMajorIndex`
(the remap writes are kept as an ordered list of
`(colMajorIndex, rowMajorIndex)` pairs). -/
def postPreStep (C : RaggedProjection) (st : (Nat → Nat) × List (Nat × Nat))
    (s : Nat × Nat) : (Nat → Nat) × List (Nat × Nat) :=
  let r := synRowMajorIndex C s
  let t := C.ind.getD r 0
  (fun x => if x = t then st.1 t + 1 else st.1 x,
   st.2 ++ [(t * C.maxColLength + st.1 t, r)])

/-- The ragged `createPosttoPreArray` of `sparseUtils.h`: zero `colLength`
(here: the constant-zero function; the `postN`-element array bound is kept as
a parameter for signature fidelity), then process every valid synapse in
row-major order.  Returns the final `colLength` and the ordered `remap` writes. -/
def createPosttoPreArray (preN : Nat) (postN : Nat) (C : RaggedProjection) :
    (Nat → Nat) × List (Nat × Nat) :=
  let _ := postN
  (rowMajorSynapses preN C).foldl (postPreStep C) ((fun _ => 0), [])

/-- The ragged `createPreIndices` of `sparseUtils.h`: a running counter
`synRemapCount` (slot 0 of `synRemap`) and the flat list of row-major indices
written to slots `1..count`, in traversal order skipping padding. -/
def createPreIndices (preN : Nat) (C : RaggedProjection) : Nat × List Nat :=
  (rowMajorSynapses preN C).foldl
    (fun st s => (st.1 + 1, st.2 ++ [synRowMajorIndex C s])) (0, [])

/-! ## Compressed-row (Yale) projections (`sparseUtils.h`, claims C3 and C10) -/

/-- The index arrays of `SparseProjection`: `connN` (stored total), the
row-start array `indInG` (length `preN + 1`) and the column-index array `ind`.
The struct deliberately does not record `preN` (noted in the source). -/
structure SparseProjection where
  connN : Nat
  indInG : List Nat
  ind : List Nat
deriving DecidableEq

/-- `countEntriesAbove` of `sparseUtils.h`: the number of entries of the first
`sz` array slots whose magnitude (`abs`) exceeds `includeAbove`. -/
def countEntriesAbove (arr : List ℚ) (sz : Nat) (includeAbove : ℚ) : Nat :=
  (arr.take sz).countP fun g => decide (includeAbove < |g|)

/-- Intermediate state of the fill loop of `createSparseConnectivityFromDense`:
the `synapse` counter and the partially built `ind`, weight and `indInG` arrays. -/
structure CSRBuildState where
  synapse : Nat
  ind : List Nat
  wuvar : List ℚ
  indInG : List Nat
deriving DecidableEq

/-- Inner loop body of `createSparseConnectivityFromDense`: read
`g = tmp_gRNPN[pre * postN + post]` and append `(post, g)` when
`g > asGoodAsZero` — note the signed comparison, with no `abs`. -/
def denseInnerStep (dense : List ℚ) (threshold : ℚ) (postN pre : Nat)
    (st : CSRBuildState) (post : Nat) : CSRBuildState :=
  let g := dense.getD (pre * postN + post) 0
  if threshold < g then
    { st with synapse := st.synapse + 1, ind := st.ind ++ [post], wuvar := st.wuvar ++ [g] }
  else st

/-- Outer loop body of `createSparseConnectivityFromDense`: scan one row, then
write `indInG[pre + 1] = synapse`. -/
def denseOuterStep (dense : List ℚ) (threshold : ℚ) (postN : Nat)
    (st : CSRBuildState) (pre : Nat) : CSRBuildState :=
  let st2 := (List.range postN).foldl (denseInnerStep dense threshold postN pre) st
  { st2 with indInG := st2.indInG ++ [st2.synapse] }

/-- `createSparseConnectivityFromDense` of `sparseUtils.h` (without the
optional random self-check): `connN` is counted by `countEntriesAbove`
(magnitude), `indInG[0] = 0`, then the row-major fill loop (signed
comparison).  Returns the projection and the parallel weight array. -/
def createSparseConnectivityFromDense (preN postN : Nat) (dense : List ℚ)
    (threshold : ℚ) : SparseProjection × List ℚ :=
  let connN := countEntriesAbove dense (preN * postN) threshold
  let st := (List.range preN).foldl (denseOuterStep dense threshold postN)
    { synapse := 0, ind := [], wuvar := [], indInG := [0] }
  ({ connN := connN, indInG := st.indInG, ind := st.ind }, st.wuvar)

/-- The scan loop of `getSparseVar`: the first `syn` in
`[start, start + n)` with `ind[syn] = y`, if any. -/
def findSynInRange (ind : List Nat) (y : Nat) : Nat → Nat → Option Nat
  | _, 0 => none
  | start, n + 1 =>
      if ind.getD start 0 = y then some start else findSynInRange ind y (start + 1) n

/-- `getSparseVar` of `sparseUtils.h`: scan row `x`'s slots
`indInG[x] .. indInG[x+1])` for column `y`; return the parallel weight of the
first hit, or the default `0` ("zero weighted for x,y") when there is none. -/
def getSparseVar (wuvar : List ℚ) (C : SparseProjection) (x y : Nat) : ℚ :=
  match findSynInRange C.ind y (C.indInG.getD x 0)
      (C.indInG.getD (x + 1) 0 - C.indInG.getD x 0) with
  | some syn => wuvar.getD syn 0
  | none => 0

/-! ## The fixed-probability connectivity snippet (claim C9) -/

/-- The derived-parameter lambda of
`InitSparseConnectivitySnippet::FixedProbability`
(`initSparseConnectivitySnippet.h`): `probLogRecip` is
`1.0 / log(1.0 - pars[0])`; the second argument (the timestep `dt`) is
ignored by the source lambda. -/
noncomputable def fixedProbabilityProbLogRecip (pars : List ℝ) (dt : ℝ) : ℝ :=
  let _ := dt
  1 / Real.log (1 - pars.getD 0 0)

/-! ## The model registry (`modelSpec.cc`, claims C4 to C7)

The registry is embedded for a single-host (non-MPI) build: every population
is added to the local partition and the remote maps stay empty, exactly as in
the `#else` branches of `addNeuronPopulation` / `addSynapsePopulation`. -/

/-- Error kinds, following the spec's taxonomy (§7).  The source funnels all
of them through the fatal `gennError`; the kind records which check fired. -/
inductive GennError where
  | configurationError
  | unsupportedCombination
  | placementConsistencyError
  | assertionFailure
deriving DecidableEq

/-- Legacy connectivity kind (`SynapseConnType`). -/
inductive SynapseConnType where
  | ALLTOALL
  | DENSE
  | SPARSE
deriving DecidableEq

/-- Legacy conductance kind (`SynapseGType`). -/
inductive SynapseGType where
  | INDIVIDUALG
  | GLOBALG
  | INDIVIDUALID
deriving DecidableEq

/-- Connectivity component of a matrix type (`SynapseMatrixConnectivity`
bit of `synapseMatrixType.h`, referenced by `finalize`'s placement check). -/
inductive SynapseMatrixConnectivity where
  | DENSE
  | SPARSE
  | RAGGED
  | BITMASK
deriving DecidableEq

/-- Weight component of a matrix type (`SynapseMatrixWeight` bit). -/
inductive SynapseMatrixWeight where
  | GLOBAL
  | INDIVIDUAL
deriving DecidableEq

/-- `SynapseMatrixType`: the bit-flag combinations of connectivity and weight
kind admitted by `synapseMatrixType.h` (the enum header is not under `src/`;
the value set is fixed by its uses in `modelSpec.cc` and by the spec's matrix
taxonomy plus the ragged variants named by the placement check). -/
inductive SynapseMatrixType where
  | DENSE_GLOBALG
  | DENSE_INDIVIDUALG
  | SPARSE_GLOBALG
  | SPARSE_INDIVIDUALG
  | RAGGED_GLOBALG
  | RAGGED_INDIVIDUALG
  | BITMASK_GLOBALG
deriving DecidableEq

/-- The `SynapseMatrixConnectivity` bit of a matrix type
(`getMatrixType() & SynapseMatrixConnectivity::…`). -/
def matrixConnectivity : SynapseMatrixType → SynapseMatrixConnectivity
  | .DENSE_GLOBALG => .DENSE
  | .DENSE_INDIVIDUALG => .DENSE
  | .SPARSE_GLOBALG => .SPARSE
  | .SPARSE_INDIVIDUALG => .SPARSE
  | .RAGGED_GLOBALG => .RAGGED
  | .RAGGED_INDIVIDUALG => .RAGGED
  | .BITMASK_GLOBALG => .BITMASK

/-- The `SynapseMatrixWeight` bit of a matrix type
(`getMatrixType() & SynapseMatrixWeight::INDIVIDUAL`). -/
def matrixWeight : SynapseMatrixType → SynapseMatrixWeight
  | .DENSE_GLOBALG => .GLOBAL
  | .DENSE_INDIVIDUALG => .INDIVIDUAL
  | .SPARSE_GLOBALG => .GLOBAL
  | .SPARSE_INDIVIDUALG => .INDIVIDUAL
  | .RAGGED_GLOBALG => .GLOBAL
  | .RAGGED_INDIVIDUALG => .INDIVIDUAL
  | .BITMASK_GLOBALG => .GLOBAL

/-- The kernel chosen by `finalize` to zero the spike counters
(`GENN_FLAGS::calcNeurons` / `learnSynapsesPost` / `calcSynapses`). -/
inductive ResetKernel where
  | calcNeurons
  | learnSynapsesPost
  | calcSynapses
deriving DecidableEq

/-- A neuron model descriptor (`nModels[type]`): declared parameter and
variable names. -/
structure NeuronModelDesc where
  pNames : List String
  varNames : List String
deriving DecidableEq

/-- A weight-update model descriptor (`weightUpdateModels[syntype]`):
declared names and the code fragments `finalize` inspects. -/
structure WeightUpdateModelDesc where
  pNames : List String
  varNames : List String
  simCode : String
  eventCode : String
  eventThresholdConditionCode : String
  learnPostCode : String
  synapseDynamicsCode : String
deriving DecidableEq

/-- A postsynaptic model descriptor (`postSynModels[postsyn]`). -/
structure PostSynModelDesc where
  pNames : List String
  varNames : List String
deriving DecidableEq

/-- A registered neuron group (the fields of `NeuronGroup` the claims touch). -/
structure NeuronGroupRec where
  numNeurons : Nat
  params : List ℚ
  varInits : List ℚ
deriving DecidableEq

/-- A registered synapse group (the fields of `SynapseGroup` the claims
touch).  `sparseConnHostInit` and `wuVarHostInit` model the
`VarInit::HOST` bit of `getSparseConnectivityVarMode()` and
`getWUVarMode(k)`; `rowBuildCode` is the connectivity initialiser snippet's
row-build code (`""` for `uninitialisedConnectivity()`). -/
structure SynapseGroupRec where
  matrixType : SynapseMatrixType
  delaySteps : Nat
  srcName : String
  trgName : String
  wu : WeightUpdateModelDesc
  ps : PostSynModelDesc
  wuParams : List ℚ
  wuVarInits : List ℚ
  psParams : List ℚ
  psVarInits : List ℚ
  rowBuildCode : String
  sparseConnHostInit : Bool
  wuVarHostInit : List Bool
deriving DecidableEq

/-- The registry state of `NNmodel` (plus the `GeNNReady` global):
the association lists keep `std::map` insertion as name-keyed entries. -/
structure GennState where
  gennReady : Bool
  final : Bool
  neuronBlkSz : Nat
  localNeuronGroups : List (String × NeuronGroupRec)
  localSynapseGroups : List (String × SynapseGroupRec)
  synapsePostLearnGroups : List String
  synapseDynamicsGroups : List String
  paddedNeuronIDRanges : List (Nat × Nat)
  resetKernel : ResetKernel
deriving DecidableEq

/-- `NNmodel::addNeuronPopulation` (vector overload): the guard chain of the
source in order — `GeNNReady`, `final`, parameter count, initial-value count,
then `emplace`, which fails on a duplicate key. -/
def addNeuronPopulation (s : GennState) (name : String) (nNo : Nat)
    (model : NeuronModelDesc) (p ini : List ℚ) :
    Except (GennError × GennState) GennState :=
  if s.gennReady = false then .error (.configurationError, s)
  else if s.final = true then .error (.configurationError, s)
  else if p.length ≠ model.pNames.length then .error (.configurationError, s)
  else if ini.length ≠ model.varNames.length then .error (.configurationError, s)
  else if (s.localNeuronGroups.lookup name).isSome then .error (.configurationError, s)
  else .ok { s with localNeuronGroups :=
    s.localNeuronGroups ++ [(name, { numNeurons := nNo, params := p, varInits := ini })] }

/-- The matrix-type derivation chain of `NNmodel::addSynapsePopulation`,
including the final (unreachable for these enums) rejection branch. -/
def deriveMatrixType (conntype : SynapseConnType) (gtype : SynapseGType) :
    Except GennError SynapseMatrixType :=
  if conntype = .SPARSE ∧ gtype = .GLOBALG then .ok .SPARSE_GLOBALG
  else if conntype = .SPARSE ∧ gtype = .INDIVIDUALG then .ok .SPARSE_INDIVIDUALG
  else if (conntype = .DENSE ∨ conntype = .ALLTOALL) ∧ gtype = .INDIVIDUALG then
    .ok .DENSE_INDIVIDUALG
  else if (conntype = .DENSE ∨ conntype = .ALLTOALL) ∧ gtype = .GLOBALG then
    .ok .DENSE_GLOBALG
  else if gtype = .INDIVIDUALID then .ok .BITMASK_GLOBALG
  else .error .unsupportedCombination

/-- `NNmodel::addSynapsePopulation` (vector overload): the guard chain of the
source in order — `GeNNReady`, `final`, the four count checks, the matrix-type
derivation, `findNeuronGroup` on source and target (fatal when absent, a
ConfigurationError per the spec), then `emplace` failing on a duplicate key.
The legacy path installs `uninitialisedConnectivity()` (empty row-build code)
and the default host-initialised variable modes. -/
def addSynapsePopulation (s : GennState) (name : String)
    (wuModel : WeightUpdateModelDesc) (conntype : SynapseConnType)
    (gtype : SynapseGType) (delaySteps : Nat) (psModel : PostSynModelDesc)
    (src trg : String) (synini p PSVini ps : List ℚ) :
    Except (GennError × GennState) GennState :=
  if s.gennReady = false then .error (.configurationError, s)
  else if s.final = true then .error (.configurationError, s)
  else if p.length ≠ wuModel.pNames.length then .error (.configurationError, s)
  else if synini.length ≠ wuModel.varNames.length then .error (.configurationError, s)
  else if ps.length ≠ psModel.pNames.length then .error (.configurationError, s)
  else if PSVini.length ≠ psModel.varNames.length then .error (.configurationError, s)
  else match deriveMatrixType conntype gtype with
    | .error e => .error (e, s)
    | .ok mtype =>
      if (s.localNeuronGroups.lookup src).isNone then .error (.configurationError, s)
      else if (s.localNeuronGroups.lookup trg).isNone then .error (.configurationError, s)
      else if (s.localSynapseGroups.lookup name).isSome then .error (.configurationError, s)
      else .ok { s with localSynapseGroups := s.localSynapseGroups ++
        [(name,
          { matrixType := mtype, delaySteps := delaySteps, srcName := src, trgName := trg,
            wu := wuModel, ps := psModel, wuParams := p, wuVarInits := synini,
            psParams := ps, psVarInits := PSVini, rowBuildCode := "",
            sparseConnHostInit := true,
            wuVarHostInit := wuModel.varNames.map fun _ => true })] }

/-- The condition of the `assert` in `finalize`'s spike-event propagation
loop: a weight-update model with event code but no event-threshold condition. -/
def eventThresholdAssertViolated (g : SynapseGroupRec) : Bool :=
  g.wu.eventCode != "" && g.wu.eventThresholdConditionCode == ""

/-- The connectivity/weight placement check of `finalize`: a group with
ragged or bitmask connectivity, a connectivity snippet with row-build code
and individual weight variables must initialise every weight variable in the
same place (`VarInit::HOST` bit) as the sparse connectivity. -/
def placementCheckViolated (g : SynapseGroupRec) : Bool :=
  (matrixConnectivity g.matrixType == .RAGGED
      || matrixConnectivity g.matrixType == .BITMASK)
    && g.rowBuildCode != ""
    && matrixWeight g.matrixType == .INDIVIDUAL
    && g.wuVarHostInit.any fun m => m != g.sparseConnHostInit

/-- The state effect of `NNmodel::setPopulationSums`: padded neuron ID ranges
for the ordered local neuron groups, and membership of the postsynaptic-learn
and synapse-dynamics group maps (groups with non-empty `learnPostCode` /
`synapseDynamicsCode`). -/
def setPopulationSumsState (s : GennState) : GennState :=
  { s with
    paddedNeuronIDRanges :=
      setPopulationSums s.neuronBlkSz (s.localNeuronGroups.map fun n => n.2.numNeurons),
    synapsePostLearnGroups :=
      ((s.localSynapseGroups.filter fun g => g.2.wu.learnPostCode != "").map fun g => g.1),
    synapseDynamicsGroups :=
      ((s.localSynapseGroups.filter fun g => g.2.wu.synapseDynamicsCode != "").map fun g => g.1) }

/-- `NNmodel::finalize`: fail when already final; mark final; the spike-event
`assert`; the placement check (both abort through `gennError`, leaving the
partially finalized state — modelled from the spec's documented failure mode);
then `setPopulationSums` and the reset-kernel selection. -/
def finalize (s : GennState) : Except (GennError × GennState) GennState :=
  if s.final = true then .error (.configurationError, s)
  else
    let s1 := { s with final := true }
    if s1.localSynapseGroups.any (fun g => eventThresholdAssertViolated g.2) then
      .error (.assertionFailure, s1)
    else if s1.localSynapseGroups.any (fun g => placementCheckViolated g.2) then
      .error (.placementConsistencyError, s1)
    else
      let s2 := setPopulationSumsState s1
      .ok { s2 with resetKernel :=
        if s2.localSynapseGroups.isEmpty then .calcNeurons
        else if s2.synapsePostLearnGroups.isEmpty = false then .learnSynapsesPost
        else .calcSynapses }

instance {ε α : Type} [DecidableEq ε] [DecidableEq α] : DecidableEq (Except ε α) :=
  fun x y =>
  match x, y with
  | .ok a, .ok b =>
      if h : a = b then isTrue (congrArg Except.ok h)
      else isFalse fun hc => h (Except.ok.inj hc)
  | .error a, .error b =>
      if h : a = b then isTrue (congrArg Except.error h)
      else isFalse fun hc => h (Except.error.inj hc)
  | .ok _, .error _ => isFalse fun hc => Except.noConfusion hc
  | .error _, .ok _ => isFalse fun hc => Except.noConfusion hc

/-! ## Concrete fixtures used by the witnesses and counterexamples -/

/-- Scenario D's forward ragged representation: `preN = 2`, `postN = 3`,
`maxRowLength = 2`, `rowLength = [2, 1]`, `colIndex = [0, 2, 1, _]` (the
padding hole is given the junk value `0`), with `maxColLength = 1` (all
incoming counts are 1). -/
def scenarioD : RaggedProjection :=
  { maxRowLength := 2, maxColLength := 1, rowLength := [2, 1], ind := [0, 2, 1, 0] }

/-- The CSR structure of scenario B (`rowStart = [0, 1, 2]`,
`colIndex = [1, 0]`), used to exercise `getSparseVar`. -/
def scenarioBProjection : SparseProjection :=
  { connN := 2, indInG := [0, 1, 2], ind := [1, 0] }

/-- A model descriptor with no parameters and no variables. -/
def emptyNeuronModel : NeuronModelDesc := { pNames := [], varNames := [] }

/-- A weight-update descriptor with no names and no code. -/
def emptyWUModel : WeightUpdateModelDesc :=
  { pNames := [], varNames := [], simCode := "", eventCode := "",
    eventThresholdConditionCode := "", learnPostCode := "", synapseDynamicsCode := "" }

/-- A postsynaptic descriptor with no names. -/
def emptyPSModel : PostSynModelDesc := { pNames := [], varNames := [] }

/-- An initialised, not yet finalized, empty registry. -/
def readyState : GennState :=
  { gennReady := true, final := false, neuronBlkSz := 32,
    localNeuronGroups := [], localSynapseGroups := [],
    synapsePostLearnGroups := [], synapseDynamicsGroups := [],
    paddedNeuronIDRanges := [], resetKernel := .calcNeurons }

/-- A registry on which `initGeNN` has not been called. -/
def notReadyState : GennState := { readyState with gennReady := false }

/-- An already finalized registry. -/
def finalizedState : GennState := { readyState with final := true }

/-- A registry already holding a neuron population named `a`. -/
def dupNeuronState : GennState :=
  { readyState with
    localNeuronGroups := [("a", { numNeurons := 1, params := [], varInits := [] })] }

/-- A synapse group as built by the legacy `addSynapsePopulation`
(sparse-global, uninitialised connectivity). -/
def legacySparseGroup : SynapseGroupRec :=
  { matrixType := .SPARSE_GLOBALG, delaySteps := 0, srcName := "p", trgName := "q",
    wu := emptyWUModel, ps := emptyPSModel, wuParams := [], wuVarInits := [],
    psParams := [], psVarInits := [], rowBuildCode := "",
    sparseConnHostInit := true, wuVarHostInit := [] }

/-- A registry holding neuron populations `p`, `q` and a synapse population
named `s` between them. -/
def dupSynapseState : GennState :=
  { readyState with
    localNeuronGroups :=
      [("p", { numNeurons := 1, params := [], varInits := [] }),
       ("q", { numNeurons := 1, params := [], varInits := [] })],
    localSynapseGroups := [("s", legacySparseGroup)] }

/-- A sparse-individual synapse group carrying a connectivity snippet with
row-build code and a weight variable whose initialisation placement differs
from the connectivity's: the situation of claim C6 but with (Yale) sparse
rather than ragged/bitmask connectivity. -/
def sparseIndivMismatchGroup : SynapseGroupRec :=
  { matrixType := .SPARSE_INDIVIDUALG, delaySteps := 0, srcName := "p", trgName := "q",
    wu := { emptyWUModel with varNames := ["g"] }, ps := emptyPSModel,
    wuParams := [], wuVarInits := [0], psParams := [], psVarInits := [],
    rowBuildCode := "x", sparseConnHostInit := false, wuVarHostInit := [true] }

/-- A registry holding only `sparseIndivMismatchGroup`. -/
def stateC6ce : GennState :=
  { readyState with localSynapseGroups := [("s", sparseIndivMismatchGroup)] }

/-- The successfully finalized form of `stateC6ce` (the placement check does
not fire for sparse connectivity). -/
def stateC6ceAfter : GennState :=
  { stateC6ce with final := true, resetKernel := .calcSynapses }

/-- The ragged-individual variant of `sparseIndivMismatchGroup`: here the
placement check does apply. -/
def raggedIndivMismatchGroup : SynapseGroupRec :=
  { sparseIndivMismatchGroup with matrixType := .RAGGED_INDIVIDUALG }

/-- A registry holding only `raggedIndivMismatchGroup`. -/
def stateC6wit : GennState :=
  { readyState with localSynapseGroups := [("r", raggedIndivMismatchGroup)] }

/-- `readyState` after a successful `finalize`. -/
def finalizedEmptyState : GennState := { readyState with final := true }

/-! ## Claim C1 : padded grid allocation -/

lemma calcPaddedRanges_length (B : Nat) :
    ∀ (sizes : List Nat) (start : Nat),
      (calcPaddedRanges B sizes start).length = sizes.length := by
  intro sizes
  induction sizes with
  | nil => intro start; rfl
  | cons n rest ih => intro start; simp [calcPaddedRanges, ih]

lemma calcPaddedRanges_get? (B : Nat) :
    ∀ (sizes : List Nat) (start k : Nat), k < sizes.length →
      (calcPaddedRanges B sizes start).get? k =
        some (start + padTotal B (sizes.take k),
              start + padTotal B (sizes.take (k + 1))) := by
  intro sizes
  induction sizes with
  | nil => intro start k hk; simp at hk
  | cons n rest ih =>
    intro start k hk
    cases k with
    | zero => simp [calcPaddedRanges, padTotal]
    | succ k =>
      have hk' : k < rest.length := by simpa using hk
      simp only [calcPaddedRanges, List.get?_cons_succ, List.take_succ_cons]
      rw [ih (start + paddedSize B n) k hk']
      simp [padTotal, Nat.add_assoc]

lemma padTotal_take_succ (B : Nat) :
    ∀ (l : List Nat) (k : Nat), k < l.length →
      padTotal B (l.take (k + 1)) = padTotal B (l.take k) + paddedSize B (l.getD k 0) := by
  intro l
  induction l with
  | nil => intro k hk; simp at hk
  | cons a t ih =>
    intro k hk
    cases k with
    | zero => simp [padTotal]
    | succ k =>
      have hk' : k < t.length := by simpa using hk
      simp only [List.take_succ_cons, List.getD_cons_succ]
      have h := ih k hk'
      simp only [padTotal, List.map_cons, List.sum_cons] at h ⊢
      omega

/-- C1: for every ordered sequence of local population sizes and block size
`B > 0`, the grid allocation of `setPopulationSums` assigns each group a
contiguous padded ID range `[start, start + ceil(size/B)*B)` (in `Nat`
arithmetic, `ceil(n/B)*B = ((n+B-1)/B)*B`), the first group's start is `0`,
each subsequent start equals the previous end; with block size 64 and sizes
130 then 70 the ranges are `[0,192)` and `[192,320)`. -/
theorem genn_C1 (B : Nat) (sizes : List Nat) (hB : 0 < B) :
    (setPopulationSums B sizes).length = sizes.length
    ∧ (∀ k r, (setPopulationSums B sizes).get? k = some r →
        r.2 = r.1 + ((sizes.getD k 0 + B - 1) / B) * B)
    ∧ (∀ r, (setPopulationSums B sizes).get? 0 = some r → r.1 = 0)
    ∧ (∀ k r r', (setPopulationSums B sizes).get? k = some r →
        (setPopulationSums B sizes).get? (k + 1) = some r' → r'.1 = r.2)
    ∧ setPopulationSums 64 [130, 70] = [(0, 192), (192, 320)] := by
  have _ := hB
  refine ⟨calcPaddedRanges_length B sizes 0, ?_, ?_, ?_, by decide⟩
  · intro k r hr
    simp only [setPopulationSums] at hr
    have hk : k < sizes.length := by
      have := List.get?_eq_some.mp hr
      simpa [calcPaddedRanges_length] using this.1
    rw [calcPaddedRanges_get? B sizes 0 k hk] at hr
    have hr' := Option.some.inj hr
    subst hr'
    simp [padTotal_take_succ B sizes k hk, paddedSize]
  · intro r hr
    simp only [setPopulationSums] at hr
    have hk : 0 < sizes.length := by
      have := List.get?_eq_some.mp hr
      simpa [calcPaddedRanges_length] using this.1
    rw [calcPaddedRanges_get? B sizes 0 0 hk] at hr
    have hr' := Option.some.inj hr
    subst hr'
    simp [padTotal]
  · intro k r r' hr hr'
    simp only [setPopulationSums] at hr hr'
    have hk : k < sizes.length := by
      have := List.get?_eq_some.mp hr
      simpa [calcPaddedRanges_length] using this.1
    have hk' : k + 1 < sizes.length := by
      have := List.get?_eq_some.mp hr'
      simpa [calcPaddedRanges_length] using this.1
    rw [calcPaddedRanges_get? B sizes 0 k hk] at hr
    rw [calcPaddedRanges_get? B sizes 0 (k + 1) hk'] at hr'
    have h1 := Option.some.inj hr
    have h2 := Option.some.inj hr'
    subst h1; subst h2
    rfl

/-- Witness for C1 at block size 64 and sizes `[130, 70]`. -/
theorem genn_C1_witness :
    0 < 64 ∧ setPopulationSums 64 [130, 70] = [(0, 192), (192, 320)] :=
  ⟨by decide, (genn_C1 64 [130, 70] (by decide)).2.2.2.2⟩

/-! ## Claim C8 : `createPreIndices` -/

lemma foldl_count_append {α β : Type} (f : α → β) :
    ∀ (l : List α) (c : Nat) (acc : List β),
      l.foldl (fun st s => (st.1 + 1, st.2 ++ [f s])) (c, acc) =
        (c + l.length, acc ++ l.map f) := by
  intro l
  induction l with
  | nil => intro c acc; simp
  | cons a t ih =>
    intro c acc
    simp only [List.foldl_cons, List.map_cons, List.length_cons]
    rw [ih]
    simp [Nat.add_assoc, Nat.add_comm 1 t.length]

lemma map_getD_range :
    ∀ (l : List Nat), (List.range l.length).map (fun i => l.getD i 0) = l := by
  intro l
  induction l with
  | nil => simp
  | cons a t ih =>
    rw [List.length_cons, List.range_succ_eq_map]
    simp only [List.map_cons, List.getD_cons_zero, List.map_map]
    have : ((fun i => (a :: t).getD i 0) ∘ Nat.succ) = fun i => t.getD i 0 := by
      funext i; simp
    rw [this, ih]

/-- C8: for every ragged projection (with a row-length entry per presynaptic
row), after `createPreIndices` the entry `synRemap[0]` equals the sum of
`rowLength[i]` over all rows, and slots `1..synRemap[0]` hold, in row-major
traversal order skipping padding, the row-major index
`i * maxRowLength + j` of each valid synapse. -/
theorem genn_C8 (preN : Nat) (C : RaggedProjection)
    (hlen : C.rowLength.length = preN) :
    (createPreIndices preN C).1 = C.rowLength.sum
    ∧ (createPreIndices preN C).2 =
        (List.range preN).bind fun i =>
          (List.range (C.rowLength.getD i 0)).map fun j => i * C.maxRowLength + j := by
  have hfold := foldl_count_append (synRowMajorIndex C) (rowMajorSynapses preN C) 0 []
  constructor
  · show ((rowMajorSynapses preN C).foldl
      (fun st s => (st.1 + 1, st.2 ++ [synRowMajorIndex C s])) (0, [])).1 = C.rowLength.sum
    rw [hfold]
    show 0 + (rowMajorSynapses preN C).length = C.rowLength.sum
    rw [Nat.zero_add, rowMajorSynapses, List.length_bind]
    subst hlen
    simp only [Function.comp_def, List.length_map, List.length_range]
    rw [map_getD_range]
  · show ((rowMajorSynapses preN C).foldl
      (fun st s => (st.1 + 1, st.2 ++ [synRowMajorIndex C s])) (0, [])).2 =
      (List.range preN).bind fun i =>
        (List.range (C.rowLength.getD i 0)).map fun j => i * C.maxRowLength + j
    rw [hfold]
    show [] ++ (rowMajorSynapses preN C).map (synRowMajorIndex C) = _
    rw [List.nil_append, rowMajorSynapses, List.map_bind]
    simp [List.map_map, Function.comp_def, synRowMajorIndex]

/-- Witness for C8 at scenario D's ragged projection. -/
theorem genn_C8_witness :
    (createPreIndices 2 scenarioD).1 = scenarioD.rowLength.sum
    ∧ (createPreIndices 2 scenarioD).2 =
        (List.range 2).bind fun i =>
          (List.range (scenarioD.rowLength.getD i 0)).map fun j =>
            i * scenarioD.maxRowLength + j :=
  genn_C8 2 scenarioD (by decide)

/-! ## Claim C5 : matrix-type derivation -/

/-- C5: `addSynapsePopulation` derives the matrix type from the
(connectivity-kind, conductance-kind) pair exactly as claimed:
SPARSE+GLOBALG → sparse-global, SPARSE+INDIVIDUALG → sparse-individual,
DENSE/ALLTOALL+INDIVIDUALG → dense-individual, DENSE/ALLTOALL+GLOBALG →
dense-global, any connectivity with INDIVIDUALID → bitmask-global.  These
cases exhaust the two enumerations, so the rejection branch for "every other
combination" is never reached: no declared combination produces
`unsupportedCombination`. -/
theorem genn_C5 :
    deriveMatrixType .SPARSE .GLOBALG = .ok .SPARSE_GLOBALG
    ∧ deriveMatrixType .SPARSE .INDIVIDUALG = .ok .SPARSE_INDIVIDUALG
    ∧ deriveMatrixType .DENSE .INDIVIDUALG = .ok .DENSE_INDIVIDUALG
    ∧ deriveMatrixType .ALLTOALL .INDIVIDUALG = .ok .DENSE_INDIVIDUALG
    ∧ deriveMatrixType .DENSE .GLOBALG = .ok .DENSE_GLOBALG
    ∧ deriveMatrixType .ALLTOALL .GLOBALG = .ok .DENSE_GLOBALG
    ∧ (∀ c, deriveMatrixType c .INDIVIDUALID = .ok .BITMASK_GLOBALG)
    ∧ (∀ c g, deriveMatrixType c g ≠ .error .unsupportedCombination) := by
  refine ⟨rfl, rfl, rfl, rfl, rfl, rfl, ?_, ?_⟩
  · intro c
    cases c <;> rfl
  · intro c g
    cases c <;> cases g <;> simp [deriveMatrixType]

/-! ## Claim C3 : dense-to-CSR construction

The source is internally inconsistent here: `connN` is counted by
`countEntriesAbove`, which compares `abs(Array[i]) > includeAbove`
(magnitude), but the fill loop appends an entry only when
`g > GENN_PREFERENCES::asGoodAsZero` (signed value, no `abs`).  On a matrix
with a negative entry of large magnitude the entry is counted but never
appended, so `connN ≠ rowStart[preN]` and the claimed "append exactly the
entries whose magnitude exceeds the threshold" fails; the function's own
optional self-check (`runTest`) would compare the dense value `-5` against
the reconstructed `0` and abort. -/

/-- C3 (code divergence, evaluated): for the 1×1 dense matrix `[-5]` with
threshold `1e-6`, the code stores `connN = 1` (counted by magnitude) yet
appends nothing — `rowStart = [0, 0]`, empty `colIndex` and weights — so
`connN ≠ rowStart[preN]` and the entry with `|-5| > 1e-6` is missing;
scenario B's all-nonnegative matrix `[[0,5],[3,0]]` behaves as claimed. -/
theorem genn_C3_divergence :
    (createSparseConnectivityFromDense 1 1 [(-5 : ℚ)] (1 / 1000000)).1.connN = 1
    ∧ (createSparseConnectivityFromDense 1 1 [(-5 : ℚ)] (1 / 1000000)).1.indInG = [0, 0]
    ∧ (createSparseConnectivityFromDense 1 1 [(-5 : ℚ)] (1 / 1000000)).1.ind = []
    ∧ (createSparseConnectivityFromDense 1 1 [(-5 : ℚ)] (1 / 1000000)).2 = []
    ∧ (createSparseConnectivityFromDense 2 2 [0, 5, 3, 0] (1 / 1000000)).1.connN = 2
    ∧ (createSparseConnectivityFromDense 2 2 [0, 5, 3, 0] (1 / 1000000)).1.indInG = [0, 1, 2]
    ∧ (createSparseConnectivityFromDense 2 2 [0, 5, 3, 0] (1 / 1000000)).1.ind = [1, 0]
    ∧ (createSparseConnectivityFromDense 2 2 [0, 5, 3, 0] (1 / 1000000)).2 = [5, 3] := by
  refine ⟨?_, ?_, ?_, ?_, ?_, ?_, ?_, ?_⟩ <;>
    norm_num [createSparseConnectivityFromDense, denseOuterStep, denseInnerStep,
      countEntriesAbove, List.range_succ, List.getD]

/-! ## Claim C2 : `createPosttoPreArray` -/

lemma postPreStep_fst (C : RaggedProjection) (st : (Nat → Nat) × List (Nat × Nat))
    (s : Nat × Nat) (x : Nat) :
    (postPreStep C st s).1 x =
      if x = synTarget C s then st.1 (synTarget C s) + 1 else st.1 x := rfl

lemma postPreStep_snd (C : RaggedProjection) (st : (Nat → Nat) × List (Nat × Nat))
    (s : Nat × Nat) :
    (postPreStep C st s).2 =
      st.2 ++ [(synTarget C s * C.maxColLength + st.1 (synTarget C s),
                synRowMajorIndex C s)] := rfl

lemma mem_rowMajorSynapses (preN : Nat) (C : RaggedProjection) (s : Nat × Nat) :
    s ∈ rowMajorSynapses preN C ↔ s.1 < preN ∧ s.2 < C.rowLength.getD s.1 0 := by
  cases s with
  | mk i j =>
    simp only [rowMajorSynapses, List.mem_bind, List.mem_map, List.mem_range,
      Prod.mk.injEq]
    constructor
    · rintro ⟨a, ha, b, hb, rfl, rfl⟩
      exact ⟨ha, hb⟩
    · rintro ⟨hi, hj⟩
      exact ⟨i, hi, j, hj, rfl, rfl⟩

lemma ppFold_count (C : RaggedProjection) :
    ∀ (l : List (Nat × Nat)) (cl : Nat → Nat) (ws : List (Nat × Nat)) (t : Nat),
      (l.foldl (postPreStep C) (cl, ws)).1 t
        = cl t + l.countP (fun s => synTarget C s == t) := by
  intro l
  induction l with
  | nil => intro cl ws t; simp
  | cons s rest ih =>
    intro cl ws t
    rw [List.foldl_cons, ih, List.countP_cons, postPreStep_fst]
    by_cases ht : t = synTarget C s
    · subst ht
      simp
      omega
    · have hne : (synTarget C s == t) = false :=
        beq_eq_false_iff_ne.mpr fun h => ht h.symm
      simp [ht, hne]

lemma ppFold_snd_map (C : RaggedProjection) :
    ∀ (l : List (Nat × Nat)) (cl : Nat → Nat) (ws : List (Nat × Nat)),
      ((l.foldl (postPreStep C) (cl, ws)).2).map Prod.snd
        = ws.map Prod.snd ++ l.map (synRowMajorIndex C) := by
  intro l
  induction l with
  | nil => intro cl ws; simp
  | cons s rest ih =>
    intro cl ws
    rw [List.foldl_cons]
    show ((rest.foldl (postPreStep C) (postPreStep C (cl, ws) s)).2).map Prod.snd = _
    rw [show postPreStep C (cl, ws) s =
      ((postPreStep C (cl, ws) s).1, (postPreStep C (cl, ws) s).2) from rfl]
    rw [ih, postPreStep_snd]
    simp

lemma ppFold_slots (C : RaggedProjection) (hM : 0 < C.maxColLength) :
    ∀ (l : List (Nat × Nat)) (cl : Nat → Nat) (ws : List (Nat × Nat)),
      (∀ t, cl t + l.countP (fun s => synTarget C s == t) ≤ C.maxColLength) →
      (∀ q ∈ ws, q.1 % C.maxColLength < cl (q.1 / C.maxColLength)) →
      (ws.map Prod.fst).Nodup →
      (∀ q ∈ (l.foldl (postPreStep C) (cl, ws)).2,
          q.1 % C.maxColLength
            < (l.foldl (postPreStep C) (cl, ws)).1 (q.1 / C.maxColLength))
      ∧ ((l.foldl (postPreStep C) (cl, ws)).2.map Prod.fst).Nodup := by
  intro l
  induction l with
  | nil => intro cl ws _ hinv hnd; exact ⟨hinv, hnd⟩
  | cons s rest ih =>
    intro cl ws hcnt hinv hnd
    have hc0 : cl (synTarget C s) < C.maxColLength := by
      have h := hcnt (synTarget C s)
      rw [List.countP_cons] at h
      simp at h
      omega
    have hdiv : (synTarget C s * C.maxColLength + cl (synTarget C s)) / C.maxColLength
        = synTarget C s := by
      rw [Nat.mul_comm, Nat.mul_add_div hM, Nat.div_eq_of_lt hc0]
      omega
    have hmod : (synTarget C s * C.maxColLength + cl (synTarget C s)) % C.maxColLength
        = cl (synTarget C s) := by
      rw [Nat.mul_comm, Nat.mul_add_mod, Nat.mod_eq_of_lt hc0]
    rw [List.foldl_cons]
    rw [show postPreStep C (cl, ws) s =
      ((postPreStep C (cl, ws) s).1, (postPreStep C (cl, ws) s).2) from rfl]
    apply ih
    · intro t
      rw [postPreStep_fst]
      have h := hcnt t
      rw [List.countP_cons] at h
      by_cases ht : t = synTarget C s
      · subst ht
        simp at h ⊢
        omega
      · have hne : (synTarget C s == t) = false :=
          beq_eq_false_iff_ne.mpr fun hx => ht hx.symm
        simp [ht, hne] at h ⊢
        omega
    · intro q hq
      rw [postPreStep_snd] at hq
      rcases List.mem_append.mp hq with hq | hq
      · have h := hinv q hq
        rw [postPreStep_fst]
        by_cases ht : q.1 / C.maxColLength = synTarget C s
        · simp [ht]
          rw [ht] at h
          omega
        · simp [ht]
          exact h
      · rcases List.mem_singleton.mp hq with rfl
        rw [postPreStep_fst]
        simp [hdiv, hmod]
    · rw [postPreStep_snd, List.map_append]
      refine hnd.append (by simp) ?_
      intro a ha hb
      rcases List.mem_singleton.mp (by simpa using hb) with rfl
      rcases List.mem_map.mp ha with ⟨q, hqmem, hq1⟩
      have h := hinv q hqmem
      rw [hq1, hmod, hdiv] at h
      omega

lemma rowMajorSynapses_pairwise (C : RaggedProjection) :
    ∀ (n : Nat), (∀ i < n, C.rowLength.getD i 0 ≤ C.maxRowLength) →
      ((rowMajorSynapses n C).map (synRowMajorIndex C)).Pairwise (· < ·) := by
  intro n
  induction n with
  | zero => intro _; simp [rowMajorSynapses]
  | succ n ih =>
    intro hr
    have hstep : rowMajorSynapses (n + 1) C
        = rowMajorSynapses n C
          ++ (List.range (C.rowLength.getD n 0)).map (fun j => (n, j)) := by
      simp [rowMajorSynapses, List.range_succ]
    rw [hstep, List.map_append, List.pairwise_append]
    refine ⟨ih fun i hi => hr i (by omega), ?_, ?_⟩
    · rw [List.map_map]
      rw [show (synRowMajorIndex C ∘ fun j => (n, j))
        = fun j => n * C.maxRowLength + j from rfl]
      rw [List.pairwise_map]
      exact (List.pairwise_lt_range _).imp fun h => by omega
    · intro a ha b hb
      rcases List.mem_map.mp ha with ⟨s, hs, rfl⟩
      rcases List.mem_map.mp hb with ⟨s', hs', rfl⟩
      rcases (mem_rowMajorSynapses n C s).mp hs with ⟨hi, hj⟩
      rcases List.mem_map.mp hs' with ⟨j', hj', rfl⟩
      have hjr : j' < C.rowLength.getD n 0 := List.mem_range.mp hj'
      have hle : C.rowLength.getD s.1 0 ≤ C.maxRowLength := hr s.1 (by omega)
      have h1 : s.1 * C.maxRowLength + s.2 < (s.1 + 1) * C.maxRowLength := by
        rw [Nat.succ_mul]
        omega
      have h2 : (s.1 + 1) * C.maxRowLength ≤ n * C.maxRowLength :=
        Nat.mul_le_mul_right _ hi
      show synRowMajorIndex C s < synRowMajorIndex C (n, j')
      simp only [synRowMajorIndex]
      omega

/-- C2: for every ragged projection (rows within `maxRowLength`) whose
postsynaptic indices are all below `postN` and whose per-target incoming
counts do not exceed `maxColLength`, after `createPosttoPreArray` every
valid forward synapse `(i, j)` is pointed to by exactly one remap write, no
two synapses land on the same column-major slot, and `colLength[t]` equals
the number of synapses targeting `t`; scenario D
(`preN=2, postN=3, maxRowLength=2, rowLength=[2,1], colIndex=[0,2,1,_]`)
yields `colLength = [1,1,1]` and remap writes `{0,1,2}`, one per target. -/
theorem genn_C2 (C : RaggedProjection) (preN postN : Nat)
    (hrows : ∀ i < preN, C.rowLength.getD i 0 ≤ C.maxRowLength)
    (hind : ∀ i < preN, ∀ j < C.rowLength.getD i 0,
      C.ind.getD (i * C.maxRowLength + j) 0 < postN)
    (hcol : ∀ t < postN,
      (rowMajorSynapses preN C).countP (fun s => synTarget C s == t)
        ≤ C.maxColLength) :
    (∀ i < preN, ∀ j < C.rowLength.getD i 0,
      ((createPosttoPreArray preN postN C).2.map Prod.snd).count
        (i * C.maxRowLength + j) = 1)
    ∧ ((createPosttoPreArray preN postN C).2.map Prod.fst).Nodup
    ∧ (∀ t, (createPosttoPreArray preN postN C).1 t
        = (rowMajorSynapses preN C).countP (fun s => synTarget C s == t))
    ∧ ((createPosttoPreArray 2 3 scenarioD).1 0 = 1
        ∧ (createPosttoPreArray 2 3 scenarioD).1 1 = 1
        ∧ (createPosttoPreArray 2 3 scenarioD).1 2 = 1
        ∧ (createPosttoPreArray 2 3 scenarioD).2 = [(0, 0), (2, 1), (1, 2)]) := by
  have hcntAll : ∀ t,
      (rowMajorSynapses preN C).countP (fun s => synTarget C s == t)
        ≤ C.maxColLength := by
    intro t
    by_cases ht : t < postN
    · exact hcol t ht
    · have hz : (rowMajorSynapses preN C).countP (fun s => synTarget C s == t) = 0 := by
        rw [List.countP_eq_zero]
        intro s hs
        rcases (mem_rowMajorSynapses preN C s).mp hs with ⟨hi, hj⟩
        have := hind s.1 hi s.2 hj
        simp only [beq_iff_eq, synTarget, synRowMajorIndex]
        omega
      omega
  have hsndmap : ((createPosttoPreArray preN postN C).2).map Prod.snd
      = (rowMajorSynapses preN C).map (synRowMajorIndex C) := by
    show (((rowMajorSynapses preN C).foldl (postPreStep C) ((fun _ => 0), [])).2).map
        Prod.snd = _
    rw [ppFold_snd_map]
    rfl
  have hpw := rowMajorSynapses_pairwise C preN hrows
  have hnd : ((rowMajorSynapses preN C).map (synRowMajorIndex C)).Nodup :=
    hpw.imp fun h => by omega
  refine ⟨?_, ?_, ?_, by decide, by decide, by decide, by decide⟩
  · intro i hi j hj
    rw [hsndmap]
    apply List.count_eq_one_of_mem hnd
    exact List.mem_map.mpr ⟨(i, j), (mem_rowMajorSynapses preN C (i, j)).mpr ⟨hi, hj⟩, rfl⟩
  · rcases Nat.eq_zero_or_pos C.maxColLength with hM | hM
    · have hnil : rowMajorSynapses preN C = [] := by
        cases h : rowMajorSynapses preN C with
        | nil => rfl
        | cons a l =>
          exfalso
          have hpos : 0 < (rowMajorSynapses preN C).countP
              (fun s => synTarget C s == synTarget C a) := by
            rw [List.countP_pos]
            exact ⟨a, by rw [h]; exact List.mem_cons_self a l, by simp⟩
          have := hcntAll (synTarget C a)
          omega
      show (((rowMajorSynapses preN C).foldl (postPreStep C) ((fun _ => 0), [])).2).map
          Prod.fst |>.Nodup
      rw [hnil]
      exact List.nodup_nil
    · exact (ppFold_slots C hM (rowMajorSynapses preN C) (fun _ => 0) []
        (by intro t; simpa using hcntAll t)
        (by intro q hq; cases hq) List.nodup_nil).2
  · intro t
    show ((rowMajorSynapses preN C).foldl (postPreStep C) ((fun _ => 0), [])).1 t = _
    rw [ppFold_count]
    omega

/-- Witness for C2 at scenario D: the remap write list points exactly once at
the row-major index of synapse `(0, 0)`. -/
theorem genn_C2_witness :
    ((createPosttoPreArray 2 3 scenarioD).2.map Prod.snd).count
      (0 * scenarioD.maxRowLength + 0) = 1 :=
  (genn_C2 scenarioD 2 3 (by decide) (by decide) (by decide)).1 0 (by decide) 0 (by decide)

/-! ## Claim C10 : `getSparseVar` -/

lemma findSynInRange_none (ind : List Nat) (y : Nat) :
    ∀ (n start : Nat),
      (∀ k, start ≤ k → k < start + n → ind.getD k 0 ≠ y) →
      findSynInRange ind y start n = none := by
  intro n
  induction n with
  | zero => intro start _; rfl
  | succ n ih =>
    intro start hmiss
    have hstart : ind.getD start 0 ≠ y := hmiss start (Nat.le_refl _) (by omega)
    simp only [findSynInRange, if_neg hstart]
    exact ih (start + 1) fun k hk1 hk2 => hmiss k (by omega) (by omega)

lemma findSynInRange_found (ind : List Nat) (y : Nat) :
    ∀ (n start k : Nat), start ≤ k → k < start + n → ind.getD k 0 = y →
      (∀ j, start ≤ j → j < start + n → ind.getD j 0 = y → j = k) →
      findSynInRange ind y start n = some k := by
  intro n
  induction n with
  | zero => intro start k h1 h2 _ _; omega
  | succ n ih =>
    intro start k h1 h2 hy huniq
    by_cases hs : ind.getD start 0 = y
    · have hk : start = k := huniq start (Nat.le_refl _) (by omega) hs
      subst hk
      simp only [findSynInRange, if_pos hs]
    · have hk : start ≠ k := fun h => hs (h ▸ hy)
      simp only [findSynInRange, if_neg hs]
      exact ih (start + 1) k (by omega) (by omega) hy
        fun j hj1 hj2 hjy => huniq j (by omega) (by omega) hjy

/-- C10: for a CSR structure and coordinates `(x, y)` with `x` a valid row
(`x + 1` indexes `rowStart`), `getSparseVar` returns the weight stored at the
unique row-`x` slot holding column `y` when such a slot exists, and returns
`0` when no slot of row `x` holds column `y` — an absent synapse is
indistinguishable from a zero-weight one and is never an error. -/
theorem genn_C10 (wuvar : List ℚ) (C : SparseProjection) (x y : Nat)
    (hx : x + 1 < C.indInG.length) :
    (∀ k, C.indInG.getD x 0 ≤ k → k < C.indInG.getD (x + 1) 0 →
      C.ind.getD k 0 = y →
      (∀ j, C.indInG.getD x 0 ≤ j → j < C.indInG.getD (x + 1) 0 →
        C.ind.getD j 0 = y → j = k) →
      getSparseVar wuvar C x y = wuvar.getD k 0)
    ∧ ((∀ k, C.indInG.getD x 0 ≤ k → k < C.indInG.getD (x + 1) 0 →
        C.ind.getD k 0 ≠ y) →
      getSparseVar wuvar C x y = 0) := by
  have _ := hx
  constructor
  · intro k hk1 hk2 hky huniq
    have hse : C.indInG.getD x 0 ≤ C.indInG.getD (x + 1) 0 := by omega
    have hfound := findSynInRange_found C.ind y
      (C.indInG.getD (x + 1) 0 - C.indInG.getD x 0) (C.indInG.getD x 0) k
      hk1 (by omega) hky (fun j hj1 hj2 hjy => huniq j hj1 (by omega) hjy)
    simp only [getSparseVar, hfound]
  · intro hmiss
    have hnone := findSynInRange_none C.ind y
      (C.indInG.getD (x + 1) 0 - C.indInG.getD x 0) (C.indInG.getD x 0)
      (fun k hk1 hk2 => hmiss k hk1 (by omega))
    simp only [getSparseVar, hnone]

/-- Witness for C10 on scenario B's CSR structure with weights `[5, 3]`:
row 0 holds column 1 with weight 5, and holds no column 0. -/
theorem genn_C10_witness :
    getSparseVar [5, 3] scenarioBProjection 0 1 = ([5, 3] : List ℚ).getD 0 0
    ∧ getSparseVar [5, 3] scenarioBProjection 0 0 = 0 :=
  ⟨(genn_C10 [5, 3] scenarioBProjection 0 1 (by decide)).1 0 (by decide) (by decide)
      (by decide) (by decide),
   (genn_C10 [5, 3] scenarioBProjection 0 0 (by decide)).2 (by decide)⟩

/-! ## Claim C4 : builder guards -/

/-- C4: every builder mutator fails with a ConfigurationError and leaves the
registry unchanged (the error carries the untouched state) when its
precondition is violated — `addNeuronPopulation` and `addSynapsePopulation`
when GeNN is not initialised, when the model is already finalized, when a
parameter-value or variable-initial-value count mismatches the descriptor's
declared count, or when the name duplicates an existing population — and a
second `finalize` fails with a ConfigurationError. -/
theorem genn_C4 :
    (∀ s name nNo model p ini, s.gennReady = false →
      addNeuronPopulation s name nNo model p ini = .error (.configurationError, s))
    ∧ (∀ s name nNo model p ini, s.gennReady = true → s.final = true →
      addNeuronPopulation s name nNo model p ini = .error (.configurationError, s))
    ∧ (∀ s name nNo model p ini, s.gennReady = true → s.final = false →
      p.length ≠ model.pNames.length →
      addNeuronPopulation s name nNo model p ini = .error (.configurationError, s))
    ∧ (∀ s name nNo model p ini, s.gennReady = true → s.final = false →
      p.length = model.pNames.length → ini.length ≠ model.varNames.length →
      addNeuronPopulation s name nNo model p ini = .error (.configurationError, s))
    ∧ (∀ s name nNo model p ini, s.gennReady = true → s.final = false →
      p.length = model.pNames.length → ini.length = model.varNames.length →
      (s.localNeuronGroups.lookup name).isSome = true →
      addNeuronPopulation s name nNo model p ini = .error (.configurationError, s))
    ∧ (∀ s name wuModel ct gt d psModel src trg synini p PSVini ps,
      s.gennReady = false →
      addSynapsePopulation s name wuModel ct gt d psModel src trg synini p PSVini ps
        = .error (.configurationError, s))
    ∧ (∀ s name wuModel ct gt d psModel src trg synini p PSVini ps,
      s.gennReady = true → s.final = true →
      addSynapsePopulation s name wuModel ct gt d psModel src trg synini p PSVini ps
        = .error (.configurationError, s))
    ∧ (∀ s name wuModel ct gt d psModel src trg synini p PSVini ps,
      s.gennReady = true → s.final = false → p.length ≠ wuModel.pNames.length →
      addSynapsePopulation s name wuModel ct gt d psModel src trg synini p PSVini ps
        = .error (.configurationError, s))
    ∧ (∀ s name wuModel ct gt d psModel src trg synini p PSVini ps,
      s.gennReady = true → s.final = false → p.length = wuModel.pNames.length →
      synini.length ≠ wuModel.varNames.length →
      addSynapsePopulation s name wuModel ct gt d psModel src trg synini p PSVini ps
        = .error (.configurationError, s))
    ∧ (∀ s name wuModel ct gt d psModel src trg synini p PSVini ps,
      s.gennReady = true → s.final = false → p.length = wuModel.pNames.length →
      synini.length = wuModel.varNames.length → ps.length ≠ psModel.pNames.length →
      addSynapsePopulation s name wuModel ct gt d psModel src trg synini p PSVini ps
        = .error (.configurationError, s))
    ∧ (∀ s name wuModel ct gt d psModel src trg synini p PSVini ps,
      s.gennReady = true → s.final = false → p.length = wuModel.pNames.length →
      synini.length = wuModel.varNames.length → ps.length = psModel.pNames.length →
      PSVini.length ≠ psModel.varNames.length →
      addSynapsePopulation s name wuModel ct gt d psModel src trg synini p PSVini ps
        = .error (.configurationError, s))
    ∧ (∀ s name wuModel ct gt d psModel src trg synini p PSVini ps mtype,
      s.gennReady = true → s.final = false → p.length = wuModel.pNames.length →
      synini.length = wuModel.varNames.length → ps.length = psModel.pNames.length →
      PSVini.length = psModel.varNames.length →
      deriveMatrixType ct gt = .ok mtype →
      (s.localNeuronGroups.lookup src).isNone = false →
      (s.localNeuronGroups.lookup trg).isNone = false →
      (s.localSynapseGroups.lookup name).isSome = true →
      addSynapsePopulation s name wuModel ct gt d psModel src trg synini p PSVini ps
        = .error (.configurationError, s))
    ∧ (∀ s, s.final = true → finalize s = .error (.configurationError, s)) := by
  refine ⟨?_, ?_, ?_, ?_, ?_, ?_, ?_, ?_, ?_, ?_, ?_, ?_, ?_⟩
  · intro s name nNo model p ini h
    simp [addNeuronPopulation, h]
  · intro s name nNo model p ini h1 h2
    simp [addNeuronPopulation, h1, h2]
  · intro s name nNo model p ini h1 h2 h3
    simp [addNeuronPopulation, h1, h2, h3]
  · intro s name nNo model p ini h1 h2 h3 h4
    simp [addNeuronPopulation, h1, h2, h3, h4]
  · intro s name nNo model p ini h1 h2 h3 h4 h5
    simp [addNeuronPopulation, h1, h2, h3, h4, h5]
  · intro s name wuModel ct gt d psModel src trg synini p PSVini ps h
    simp [addSynapsePopulation, h]
  · intro s name wuModel ct gt d psModel src trg synini p PSVini ps h1 h2
    simp [addSynapsePopulation, h1, h2]
  · intro s name wuModel ct gt d psModel src trg synini p PSVini ps h1 h2 h3
    simp [addSynapsePopulation, h1, h2, h3]
  · intro s name wuModel ct gt d psModel src trg synini p PSVini ps h1 h2 h3 h4
    simp [addSynapsePopulation, h1, h2, h3, h4]
  · intro s name wuModel ct gt d psModel src trg synini p PSVini ps h1 h2 h3 h4 h5
    simp [addSynapsePopulation, h1, h2, h3, h4, h5]
  · intro s name wuModel ct gt d psModel src trg synini p PSVini ps h1 h2 h3 h4 h5 h6
    simp [addSynapsePopulation, h1, h2, h3, h4, h5, h6]
  · intro s name wuModel ct gt d psModel src trg synini p PSVini ps mtype
      h1 h2 h3 h4 h5 h6 hmt h7 h8 h9
    simp [addSynapsePopulation, h1, h2, h3, h4, h5, h6, hmt, h7, h8, h9]
  · intro s h
    simp [finalize, h]

/-- Witness for C4: each guard exercised at a concrete registry. -/
theorem genn_C4_witness :
    addNeuronPopulation notReadyState "n" 1 emptyNeuronModel [] []
      = .error (.configurationError, notReadyState)
    ∧ addNeuronPopulation finalizedState "n" 1 emptyNeuronModel [] []
      = .error (.configurationError, finalizedState)
    ∧ addNeuronPopulation readyState "n" 1 emptyNeuronModel [0] []
      = .error (.configurationError, readyState)
    ∧ addNeuronPopulation readyState "n" 1 emptyNeuronModel [] [0]
      = .error (.configurationError, readyState)
    ∧ addNeuronPopulation dupNeuronState "a" 1 emptyNeuronModel [] []
      = .error (.configurationError, dupNeuronState)
    ∧ addSynapsePopulation notReadyState "t" emptyWUModel .SPARSE .GLOBALG 0
        emptyPSModel "p" "q" [] [] [] []
      = .error (.configurationError, notReadyState)
    ∧ addSynapsePopulation finalizedState "t" emptyWUModel .SPARSE .GLOBALG 0
        emptyPSModel "p" "q" [] [] [] []
      = .error (.configurationError, finalizedState)
    ∧ addSynapsePopulation readyState "t" emptyWUModel .SPARSE .GLOBALG 0
        emptyPSModel "p" "q" [] [0] [] []
      = .error (.configurationError, readyState)
    ∧ addSynapsePopulation readyState "t" emptyWUModel .SPARSE .GLOBALG 0
        emptyPSModel "p" "q" [0] [] [] []
      = .error (.configurationError, readyState)
    ∧ addSynapsePopulation readyState "t" emptyWUModel .SPARSE .GLOBALG 0
        emptyPSModel "p" "q" [] [] [] [0]
      = .error (.configurationError, readyState)
    ∧ addSynapsePopulation readyState "t" emptyWUModel .SPARSE .GLOBALG 0
        emptyPSModel "p" "q" [] [] [0] []
      = .error (.configurationError, readyState)
    ∧ addSynapsePopulation dupSynapseState "s" emptyWUModel .SPARSE .GLOBALG 0
        emptyPSModel "p" "q" [] [] [] []
      = .error (.configurationError, dupSynapseState)
    ∧ finalize finalizedState = .error (.configurationError, finalizedState) :=
  ⟨genn_C4.1 notReadyState "n" 1 emptyNeuronModel [] [] (by decide),
   genn_C4.2.1 finalizedState "n" 1 emptyNeuronModel [] [] (by decide) (by decide),
   genn_C4.2.2.1 readyState "n" 1 emptyNeuronModel [0] [] (by decide) (by decide)
     (by decide),
   genn_C4.2.2.2.1 readyState "n" 1 emptyNeuronModel [] [0] (by decide) (by decide)
     (by decide) (by decide),
   genn_C4.2.2.2.2.1 dupNeuronState "a" 1 emptyNeuronModel [] [] (by decide) (by decide)
     (by decide) (by decide) (by decide),
   genn_C4.2.2.2.2.2.1 notReadyState "t" emptyWUModel .SPARSE .GLOBALG 0
     emptyPSModel "p" "q" [] [] [] [] (by decide),
   genn_C4.2.2.2.2.2.2.1 finalizedState "t" emptyWUModel .SPARSE .GLOBALG 0
     emptyPSModel "p" "q" [] [] [] [] (by decide) (by decide),
   genn_C4.2.2.2.2.2.2.2.1 readyState "t" emptyWUModel .SPARSE .GLOBALG 0
     emptyPSModel "p" "q" [] [0] [] [] (by decide) (by decide) (by decide),
   genn_C4.2.2.2.2.2.2.2.2.1 readyState "t" emptyWUModel .SPARSE .GLOBALG 0
     emptyPSModel "p" "q" [0] [] [] [] (by decide) (by decide) (by decide) (by decide),
   genn_C4.2.2.2.2.2.2.2.2.2.1 readyState "t" emptyWUModel .SPARSE .GLOBALG 0
     emptyPSModel "p" "q" [] [] [] [0] (by decide) (by decide) (by decide) (by decide)
     (by decide),
   genn_C4.2.2.2.2.2.2.2.2.2.2.1 readyState "t" emptyWUModel .SPARSE .GLOBALG 0
     emptyPSModel "p" "q" [] [] [0] [] (by decide) (by decide) (by decide) (by decide)
     (by decide) (by decide),
   genn_C4.2.2.2.2.2.2.2.2.2.2.2.1 dupSynapseState "s" emptyWUModel .SPARSE .GLOBALG 0
     emptyPSModel "p" "q" [] [] [] [] .SPARSE_GLOBALG (by decide) (by decide) (by decide)
     (by decide) (by decide) (by decide) rfl (by decide) (by decide) (by decide),
   genn_C4.2.2.2.2.2.2.2.2.2.2.2.2 finalizedState (by decide)⟩

/-! ## Claim C7 : reset-kernel selection -/

lemma filter_map_isEmpty {α β : Type} (p : α → Bool) (f : α → β) :
    ∀ l : List α, ((l.filter p).map f).isEmpty = !l.any p := by
  intro l
  induction l with
  | nil => rfl
  | cons a t ih =>
    by_cases h : p a
    · simp [List.filter_cons, h]
    · simp [List.filter_cons, h, ih]

/-- C7: after a successful `finalize`, the reset kernel is exactly: the
neuron-update kernel when there are no local synapse groups; otherwise the
postsynaptic-learning kernel when at least one local synapse group requires
postsynaptic learning (non-empty `learnPostCode`); otherwise the
synapse-update kernel. -/
theorem genn_C7 (s s' : GennState) (h : finalize s = Except.ok s') :
    s'.resetKernel =
      if s'.localSynapseGroups.isEmpty then ResetKernel.calcNeurons
      else if s'.localSynapseGroups.any (fun g => g.2.wu.learnPostCode != "") then
        ResetKernel.learnSynapsesPost
      else ResetKernel.calcSynapses := by
  simp only [finalize] at h
  split at h
  · exact Except.noConfusion h
  · split at h
    · exact Except.noConfusion h
    · split at h
      · exact Except.noConfusion h
      · injection h with h
        subst h
        simp only [setPopulationSumsState]
        cases he : s.localSynapseGroups.isEmpty
        · by_cases hany : (s.localSynapseGroups.any fun g => g.2.wu.learnPostCode != "") = true
          · simp [hany, filter_map_isEmpty]
          · simp only [Bool.not_eq_true] at hany
            simp [hany, filter_map_isEmpty]
        · simp [he]

/-- Witness for C7: finalizing the empty registry selects the neuron-update
kernel. -/
theorem genn_C7_witness :
    finalizedEmptyState.resetKernel =
      if finalizedEmptyState.localSynapseGroups.isEmpty then ResetKernel.calcNeurons
      else if finalizedEmptyState.localSynapseGroups.any
          (fun g => g.2.wu.learnPostCode != "") then ResetKernel.learnSynapsesPost
      else ResetKernel.calcSynapses :=
  genn_C7 readyState finalizedEmptyState (by decide)

/-! ## Claim C6 : placement validation and partial finalization

The claim as frozen quantifies over "every synapse group that has
individually-initialized weight variables AND a connectivity snippet with
non-empty row-build code".  The source check
(`modelSpec.cc`, `NNmodel::finalize`) additionally requires the group's
matrix connectivity to be RAGGED or BITMASK:
a (Yale) sparse-individual group meeting the claim's hypotheses is skipped
and `finalize` succeeds, so the claim as stated fails; the counterexample
below exhibits this.  The amended claim adds the ragged-or-bitmask
connectivity condition; the no-rollback half of the claim is confirmed
unchanged. -/

/-- C6 (counterexample): a sparse-individual synapse group with a row-build
connectivity snippet and a host/device placement mismatch satisfies the
claim's hypotheses, yet `finalize` succeeds — the claim's "finalize fails"
is false on the code. -/
theorem genn_C6_counterexample :
    matrixWeight sparseIndivMismatchGroup.matrixType = .INDIVIDUAL
    ∧ sparseIndivMismatchGroup.rowBuildCode ≠ ""
    ∧ (∃ m ∈ sparseIndivMismatchGroup.wuVarHostInit,
        m ≠ sparseIndivMismatchGroup.sparseConnHostInit)
    ∧ ("s", sparseIndivMismatchGroup) ∈ stateC6ce.localSynapseGroups
    ∧ stateC6ce.final = false
    ∧ finalize stateC6ce = .ok stateC6ceAfter := by
  refine ⟨rfl, by decide, by decide, by decide, rfl, by decide⟩

/-- C6 (amended): for every synapse group with ragged or bitmask connectivity
that has individually-initialized weight variables and a connectivity snippet
with non-empty row-build code, if some weight variable's host/device
initialization placement differs from the sparse connectivity's, `finalize`
fails; the failure state is already marked finalized (no rollback), and every
subsequent mutator or `finalize` call on it fails as well. -/
theorem genn_C6_amended (s : GennState) (g : String × SynapseGroupRec)
    (hmem : g ∈ s.localSynapseGroups)
    (hconn : matrixConnectivity g.2.matrixType = .RAGGED
      ∨ matrixConnectivity g.2.matrixType = .BITMASK)
    (hrow : g.2.rowBuildCode ≠ "")
    (hw : matrixWeight g.2.matrixType = .INDIVIDUAL)
    (hmm : ∃ m ∈ g.2.wuVarHostInit, m ≠ g.2.sparseConnHostInit)
    (hnf : s.final = false) :
    ∃ e s', finalize s = .error (e, s') ∧ s'.final = true
      ∧ (∀ name nNo model p ini, ∃ e2,
          addNeuronPopulation s' name nNo model p ini = .error (e2, s'))
      ∧ (∀ name wuModel ct gt d psModel src trg synini p PSVini ps, ∃ e3,
          addSynapsePopulation s' name wuModel ct gt d psModel src trg synini p PSVini ps
            = .error (e3, s'))
      ∧ finalize s' = .error (.configurationError, s') := by
  have hviol : placementCheckViolated g.2 = true := by
    simp only [placementCheckViolated, Bool.and_eq_true, Bool.or_eq_true, beq_iff_eq,
      bne_iff_ne, List.any_eq_true]
    exact ⟨⟨⟨hconn, hrow⟩, hw⟩, hmm⟩
  have hfin : finalize s = .error (.assertionFailure, { s with final := true })
      ∨ finalize s = .error (.placementConsistencyError, { s with final := true }) := by
    by_cases hass : ({ s with final := true } : GennState).localSynapseGroups.any
        (fun g => eventThresholdAssertViolated g.2) = true
    · left
      simp [finalize, hnf, hass]
    · right
      have hpl : ({ s with final := true } : GennState).localSynapseGroups.any
          (fun g => placementCheckViolated g.2) = true :=
        List.any_eq_true.mpr ⟨g, hmem, hviol⟩
      simp [finalize, hnf, hass, hpl]
  have hsubN : ∀ name nNo model p ini, ∃ e2,
      addNeuronPopulation { s with final := true } name nNo model p ini
        = .error (e2, { s with final := true }) := by
    intro name nNo model p ini
    cases hgr : ({ s with final := true } : GennState).gennReady
    · exact ⟨.configurationError, by simp [addNeuronPopulation, hgr]⟩
    · exact ⟨.configurationError, by simp [addNeuronPopulation, hgr]⟩
  have hsubS : ∀ name wuModel ct gt d psModel src trg synini p PSVini ps, ∃ e3,
      addSynapsePopulation { s with final := true } name wuModel ct gt d psModel
        src trg synini p PSVini ps = .error (e3, { s with final := true }) := by
    intro name wuModel ct gt d psModel src trg synini p PSVini ps
    cases hgr : ({ s with final := true } : GennState).gennReady
    · exact ⟨.configurationError, by simp [addSynapsePopulation, hgr]⟩
    · exact ⟨.configurationError, by simp [addSynapsePopulation, hgr]⟩
  have hfin2 : finalize { s with final := true }
      = .error (.configurationError, { s with final := true }) := by
    simp [finalize]
  rcases hfin with h | h
  · exact ⟨.assertionFailure, { s with final := true }, h, rfl, hsubN, hsubS, hfin2⟩
  · exact ⟨.placementConsistencyError, { s with final := true }, h, rfl, hsubN, hsubS, hfin2⟩

/-- Witness for the amended C6 at a ragged-individual group with a placement
mismatch. -/
theorem genn_C6_witness :
    ∃ e s', finalize stateC6wit = .error (e, s') ∧ s'.final = true
      ∧ (∀ name nNo model p ini, ∃ e2,
          addNeuronPopulation s' name nNo model p ini = .error (e2, s'))
      ∧ (∀ name wuModel ct gt d psModel src trg synini p PSVini ps, ∃ e3,
          addSynapsePopulation s' name wuModel ct gt d psModel src trg synini p PSVini ps
            = .error (e3, s'))
      ∧ finalize s' = .error (.configurationError, s') :=
  genn_C6_amended stateC6wit ("r", raggedIndivMismatchGroup) (by decide)
    (Or.inl rfl) (by decide) rfl (by decide) rfl

/-! ## Claim C9 : the derived parameter `probLogRecip` -/

/-- C9: the fixed-probability snippet's derived parameter `probLogRecip` is
`1/ln(1-prob)`, a pure function of the base parameter that ignores the
timestep, and for `prob = 0.1` its value `1/ln(0.9)` is within `1/1000` of
`-9.4912`. -/
theorem genn_C9 :
    (∀ pars d1 d2,
      fixedProbabilityProbLogRecip pars d1 = fixedProbabilityProbLogRecip pars d2)
    ∧ (∀ d, fixedProbabilityProbLogRecip [(0.1 : ℝ)] d = 1 / Real.log (1 - 0.1))
    ∧ (∀ d, |fixedProbabilityProbLogRecip [(0.1 : ℝ)] d - (-9.4912)| < 1 / 1000) := by
  have habs : |(0.1 : ℝ)| < 1 := by
    rw [abs_of_pos] <;> norm_num
  have h := Real.abs_log_sub_add_sum_range_le habs 5
  have hsum : (∑ i ∈ Finset.range 5, (0.1 : ℝ) ^ (i + 1) / (i + 1))
      = 316081 / 3000000 := by
    rw [Finset.sum_range_succ, Finset.sum_range_succ, Finset.sum_range_succ,
      Finset.sum_range_succ, Finset.sum_range_succ, Finset.sum_range_zero]
    norm_num
  rw [hsum] at h
  have hb : |(0.1 : ℝ)| ^ 6 / (1 - |(0.1 : ℝ)|) = 1 / 900000 := by
    rw [abs_of_pos] <;> norm_num
  rw [hb] at h
  have hL := abs_le.mp h
  set L := Real.log (1 - (0.1 : ℝ)) with hLdef
  have hL1 : L ≤ -(948233 / 9000000 : ℝ) := by linarith [hL.2]
  have hL2 : -(948253 / 9000000 : ℝ) ≤ L := by linarith [hL.1]
  have hLneg : L < 0 := by linarith
  refine ⟨fun pars d1 d2 => rfl, fun d => rfl, fun d => ?_⟩
  rw [show fixedProbabilityProbLogRecip [(0.1 : ℝ)] d = 1 / L from rfl, abs_lt]
  constructor
  · have h1 : (-9.4922 : ℝ) < 1 / L := by
      rw [lt_div_iff_of_neg hLneg]
      linarith
    linarith
  · have h2 : 1 / L < (-9.4902 : ℝ) := by
      rw [div_lt_iff_of_neg hLneg]
      linarith
    linarith
